import Mathlib

/-!
Shallow embedding of `src/forCoze/src/app2.py` (student project evaluation app).

The module's core is four functions:
  * `get_coze_client` — credential resolution and remote client construction;
  * `extract_markdown_text` — extraction of a Markdown payload from a response;
  * `evaluate_with_coze` — the remote evaluation path with mock fallback;
  * `evaluate_mock` / `evaluate_project` — the local mock report and dispatcher.

Python values handled by the extraction routine are modelled by `PyVal`;
exceptions are modelled by `Except String`; the process environment and the
external `cozepy` streaming service are modelled by a `World` record, and
`json.loads` is passed as an explicit function parameter, since both live
outside this repository.
-/

namespace App2

/-- Model of a Python value as seen by `extract_markdown_text`: strings,
ints, `None`, lists, dicts (string-keyed), and generic objects carrying
attributes (`hasattr`/`getattr` succeed only on `obj`). -/
inductive PyVal where
  | str (s : String)
  | int (n : Int)
  | none_
  | list (xs : List PyVal)
  | dict (entries : List (String × PyVal))
  | obj (attrs : List (String × PyVal))

mutual

/-- Model of CPython `repr()` on the `PyVal` shapes above (strings quoted,
dicts and lists rendered with their element reprs). -/
def pyRepr : PyVal → String
  | .str s => "\x27" ++ s ++ "\x27"
  | .int n => toString n
  | .none_ => "None"
  | .list xs => "[" ++ pyReprList xs ++ "]"
  | .dict es => "\x7b" ++ pyReprEntries es ++ "\x7d"
  | .obj _ => "<object>"

/-- Comma-separated reprs of the elements of a Python list. -/
def pyReprList : List PyVal → String
  | [] => ""
  | [x] => pyRepr x
  | x :: xs => pyRepr x ++ ", " ++ pyReprList xs

/-- Comma-separated `key: value` reprs of the entries of a Python dict. -/
def pyReprEntries : List (String × PyVal) → String
  | [] => ""
  | [(k, v)] => "\x27" ++ k ++ "\x27: " ++ pyRepr v
  | (k, v) :: es => "\x27" ++ k ++ "\x27: " ++ pyRepr v ++ ", " ++ pyReprEntries es

end

/-- Model of CPython `str()`: identical to `repr()` except on strings, where
it returns the text itself without quotes. -/
def pyStr : PyVal → String
  | .str s => s
  | v => pyRepr v

/-- Python's substring containment test `k in s` for strings. -/
def strMem (k s : String) : Bool := (s.splitOn k).length != 1

/-- Python's `x == "data"` test used by `"data" in some_list`. -/
def isDataStr : PyVal → Bool
  | .str s => s == "data"
  | _ => false

/-- The `try` body of `extract_markdown_text` (app2.py lines 34-52): parse a
string response with `json.loads`, look up a `data` field by attribute first
and then by key, return it verbatim when it is a string and stringified
otherwise, and stringify the whole payload when the field is absent.
Exceptions raised anywhere in the body surface as `.error`:
`json.loads` failures, and the `TypeError`s CPython raises when `'data' in x`
is applied to a non-container or when indexing a non-dict with a string. -/
def extractAttempt (jsonLoads : String → Except String PyVal) (response : PyVal) :
    Except String String := do
  let response_data ← match response with
    | .str s => jsonLoads s
    | v => pure v
  match response_data with
  | .obj attrs =>
    match attrs.lookup "data" with
    | some data => pure (if let .str s := data then s else pyStr data)
    | none => throw "TypeError: argument of type object is not iterable"
  | .dict es =>
    match es.lookup "data" with
    | some data => pure (if let .str s := data then s else pyStr data)
    | none => pure (pyStr (.dict es))
  | .str s =>
    if strMem "data" s then throw "TypeError: string indices must be integers"
    else pure (pyStr (.str s))
  | .list xs =>
    if xs.any isDataStr then throw "TypeError: list indices must be integers"
    else pure (pyStr (.list xs))
  | .int _ => throw "TypeError: argument of type int is not iterable"
  | .none_ => throw "TypeError: argument of type NoneType is not iterable"

/-- `extract_markdown_text` (app2.py lines 32-57): run the `try` body; on any
exception return the stringified original response. -/
def extract_markdown_text (jsonLoads : String → Except String PyVal)
    (response : PyVal) : String :=
  match extractAttempt jsonLoads response with
  | .ok s => s
  | .error _ => pyStr response

/-- The `message` attribute of a stream event, itself optionally carrying a
`content` attribute. -/
structure EvMsg where
  content : Option String

/-- A stream event as probed by the aggregation loop: each of the three
attributes `message`, `content`, `output` may be absent (`hasattr` false). -/
structure StreamEvent where
  message : Option EvMsg
  content : Option String
  output : Option PyVal

/-- One iteration of the aggregation loop (app2.py lines 85-97): probe
`event.message.content`, else `event.content`, else `str(event.output)`, and
append the found text plus a newline; events matching none leave the
accumulator unchanged. -/
def eventAppend (output_text : String) (event : StreamEvent) : String :=
  match event.message.bind EvMsg.content with
  | some c => output_text ++ c ++ "\n"
  | none =>
    match event.content with
    | some c => output_text ++ c ++ "\n"
    | none =>
      match event.output with
      | some o => output_text ++ pyStr o ++ "\n"
      | none => output_text

/-- The full aggregation loop: fold `eventAppend` over the drained event
sequence starting from the empty accumulator. -/
def aggregate (events : List StreamEvent) : String :=
  events.foldl eventAppend ""

/-- The text extracted from a single event, in the loop's priority order:
`message.content`, else `content`, else stringified `output`. -/
def eventText (event : StreamEvent) : Option String :=
  match event.message.bind EvMsg.content with
  | some c => some c
  | none =>
    match event.content with
    | some c => some c
    | none => event.output.map pyStr

/-- One event's contribution to the accumulator: the extracted text plus one
newline, or nothing when no field matched. -/
def eventPiece (event : StreamEvent) : String :=
  match eventText event with
  | some t => t ++ "\n"
  | none => ""

/-- Concatenation of the per-event contributions, in emission order. -/
def piecesText : List StreamEvent → String
  | [] => ""
  | e :: es => eventPiece e ++ piecesText es

/-- A value passed in the workflow parameter mapping: four strings and one
list of strings. -/
inductive ParamVal where
  | str (s : String)
  | strList (xs : List String)

/-- The parameter mapping built from the five request fields (app2.py lines
69-75), with the fixed key names. -/
def mkParameters (project_name project_description project_field student_level : String)
    (submission_materials : List String) : List (String × ParamVal) :=
  [("project_name", .str project_name),
   ("project_description", .str project_description),
   ("project_field", .str project_field),
   ("student_level", .str student_level),
   ("submission_materials", .strList submission_materials)]

/-- The `cozepy` base-URL constant for the CN endpoint (external library
constant; its exact value is irrelevant to the logic). -/
def COZE_CN_BASE_URL : String := "https://api.coze.cn"

/-- The constructed Coze client: the `cozepy` constructor only stores its
configuration. -/
structure Coze where
  token : String
  base_url : String

/-- The external world an evaluation request runs against: whether the
`cozepy` import succeeded, the process environment (`os.getenv`), and the
remote streaming call. A `stream` result of `.error e` models an exception
with message `str(e)` raised at any point of the call or of draining the
stream; `.ok (events, response)` models a fully drained stream yielding
`events` with `response` the raw stream/terminal object. -/
structure World where
  cozepy_available : Bool
  getenv : String → Option String
  stream : Coze → String → List (String × ParamVal) →
    Except String (List StreamEvent × PyVal)

/-- `get_coze_client` (app2.py lines 19-29): `None` when the library is
unavailable or the token is unset or empty; otherwise the constructed
client. -/
def get_coze_client (w : World) : Option Coze :=
  if !w.cozepy_available then none
  else
    match w.getenv "COZE_API_TOKEN" with
    | none => none
    | some coze_api_token =>
      if coze_api_token = "" then none
      else some { token := coze_api_token, base_url := COZE_CN_BASE_URL }

/-- Template segment of the mock report before the project name. -/
def MOCK_A : String :=
  "\n# 🎓 项目评价报告 (模拟数据)\n\n## 项目信息\n- **项目名称**: "

/-- Template segment between project name and project field. -/
def MOCK_B : String :=
  "\n- **项目领域**: "

/-- Template segment between project field and student level. -/
def MOCK_C : String :=
  "\n- **学生水平**: "

/-- Template segment between student level and the joined materials. -/
def MOCK_D : String :=
  "\n- **提交材料**: "

/-- Template segment between the joined materials and the description. -/
def MOCK_E : String :=
  "\n\n## 项目描述\n"

/-- Template segment between the description and the second use of the
project field (fixed scores, strengths, suggestions). -/
def MOCK_F : String :=
  "\n\n## 模拟评分结果\n- **综合评分**: 8.2/10\n- **创新性**: 7.5/10\n- **技术难度**: 8.0/10\n- **完成度**: 8.5/10\n- **文档质量**: 7.0/10\n\n## 项目优势\n✅ 项目构思清晰，目标明确  \n✅ 技术选型合理，符合当前技术趋势  \n✅ 功能设计完整，用户体验考虑周到  \n\n## 改进建议\n📝 可以进一步优化项目文档结构  \n📝 考虑添加更多创新功能点  \n📝 建议完善测试用例  \n\n## 学习收获\n通过本项目，学生能够掌握**"

/-- Closing template segment after the second use of the project field. -/
def MOCK_G : String :=
  "**领域的基础知识和实践技能，提升问题解决能力和团队协作能力。\n\n## 后续建议\n1. 继续深入相关技术的学习\n2. 参与更多实际项目积累经验\n3. 关注行业最新发展趋势\n\n---\n\n*注：这是模拟评价，请配置Coze API Token和工作流ID后获取真实评价*\n"

/-- `evaluate_mock` (app2.py lines 107-149): the fixed-layout f-string report
with the five fields interpolated (materials joined by ", ", field used
twice). -/
def evaluate_mock (project_name project_description project_field student_level : String)
    (submission_materials : List String) : String :=
  MOCK_A ++ project_name ++ MOCK_B ++ project_field ++ MOCK_C ++ student_level
    ++ MOCK_D ++ String.intercalate ", " submission_materials
    ++ MOCK_E ++ project_description
    ++ MOCK_F ++ project_field ++ MOCK_G

/-- The error banner prefix of the remote-failure message (app2.py line 104). -/
def ERROR_BANNER : String := "❌ Coze工作流错误："

/-- `evaluate_with_coze` (app2.py lines 60-104): resolve client and workflow
id, fall back to the mock when either is missing or empty; otherwise run the
streaming call, aggregate the events, and extract Markdown from the
accumulated text (or from the raw response object when the accumulator is
empty); any exception from the call or the drain yields the banner plus the
mock report. -/
def evaluate_with_coze (w : World) (jsonLoads : String → Except String PyVal)
    (project_name project_description project_field student_level : String)
    (submission_materials : List String) : String :=
  match get_coze_client w, w.getenv "WORKFLOW_ID" with
  | some coze, some workflow_id =>
    if workflow_id = "" then
      evaluate_mock project_name project_description project_field student_level
        submission_materials
    else
      match w.stream coze workflow_id
          (mkParameters project_name project_description project_field student_level
            submission_materials) with
      | .ok (events, response) =>
        let output_text := aggregate events
        extract_markdown_text jsonLoads
          (if output_text = "" then response else .str output_text)
      | .error e =>
        ERROR_BANNER ++ e ++ "\n\n"
          ++ evaluate_mock project_name project_description project_field student_level
            submission_materials
  | _, _ =>
    evaluate_mock project_name project_description project_field student_level
      submission_materials

/-- `evaluate_project` (app2.py lines 152-154): the dispatcher simply
delegates to `evaluate_with_coze`. -/
def evaluate_project (w : World) (jsonLoads : String → Except String PyVal)
    (project_name project_description project_field student_level : String)
    (submission_materials : List String) : String :=
  evaluate_with_coze w jsonLoads project_name project_description project_field
    student_level submission_materials

/-- Substring containment: `pat` occurs contiguously inside `s`. -/
def hasSubstr (s pat : String) : Prop := ∃ l r, s = l ++ pat ++ r

/-- A `json.loads` model that fails on every input, for concrete witnesses
(any non-JSON text such as "hello" fails to parse). -/
def jsonLoadsFail : String → Except String PyVal :=
  fun _ => .error "Expecting value: line 1 column 1 (char 0)"

/-- An environment holding a token and a workflow id, for concrete
witnesses. -/
def envFull : String → Option String :=
  fun k => if k = "COZE_API_TOKEN" then some "token123"
    else if k = "WORKFLOW_ID" then some "wf42" else none

/-- A world whose remote call always raises, for concrete witnesses. -/
def worldErr : World :=
  { cozepy_available := true, getenv := envFull, stream := fun _ _ _ => .error "boom" }

/-- A world whose remote call yields one content-bearing event, for concrete
witnesses. -/
def worldOk : World :=
  { cozepy_available := true, getenv := envFull,
    stream := fun _ _ _ => .ok ([⟨none, some "a", none⟩], .none_) }

/-- A world with an empty environment, for concrete witnesses. -/
def worldBare : World :=
  { cozepy_available := true, getenv := fun _ => none, stream := fun _ _ _ => .error "down" }

/-- One loop iteration appends exactly the event's contribution. -/
theorem eventAppend_piece (acc : String) (e : StreamEvent) :
    eventAppend acc e = acc ++ eventPiece e := by
  unfold eventAppend eventPiece eventText
  cases e.message.bind EvMsg.content with
  | some c => simp [String.append_assoc]
  | none =>
    cases e.content with
    | some c => simp [String.append_assoc]
    | none =>
      cases e.output with
      | some o => simp [String.append_assoc]
      | none => simp [String.append_empty]

/-- Folding the loop body from any accumulator appends the concatenated
per-event contributions. -/
theorem foldl_eventAppend (events : List StreamEvent) :
    ∀ acc : String, events.foldl eventAppend acc = acc ++ piecesText events := by
  induction events with
  | nil => intro acc; simp [piecesText, String.append_empty]
  | cons e es ih =>
    intro acc
    simp only [List.foldl_cons, piecesText]
    rw [eventAppend_piece, ih, String.append_assoc]

/-- Claim C4: the aggregator extracts from each event in priority order
(`message.content`, else `content`, else stringified `output`), appends the
extracted text plus one newline, events matching no field contribute
nothing, and three events carrying `content` fields "a", "b", "c" yield the
accumulator "a\nb\nc\n". -/
theorem aggregate_priority_newline_join :
    (∀ events : List StreamEvent, aggregate events = piecesText events)
    ∧ aggregate [⟨none, some "a", none⟩, ⟨none, some "b", none⟩, ⟨none, some "c", none⟩]
        = "a\nb\nc\n" := by
  refine ⟨fun events => ?_, by decide⟩
  rw [aggregate, foldl_eventAppend, String.empty_append]

/-- Claim C5: for a structured payload whose `data` field (attribute first,
then key) holds a string X, `extract_markdown_text` returns X verbatim; in
particular the dict with single entry `data` mapped to "X" extracts to
"X". -/
theorem extract_data_roundtrip (jsonLoads : String → Except String PyVal) (X : String)
    (entries attrs : List (String × PyVal))
    (hd : List.lookup "data" entries = some (PyVal.str X))
    (ha : List.lookup "data" attrs = some (PyVal.str X)) :
    extract_markdown_text jsonLoads (.dict entries) = X
    ∧ extract_markdown_text jsonLoads (.obj attrs) = X := by
  constructor <;>
    simp [extract_markdown_text, extractAttempt, hd, ha, pure, Except.pure, Bind.bind,
      Except.bind]

/-- Witness for C5 at the concrete payloads of the claim. -/
theorem extract_data_roundtrip_witness :
    List.lookup "data" [("data", PyVal.str "X")] = some (PyVal.str "X")
    ∧ extract_markdown_text jsonLoadsFail (.dict [("data", .str "X")]) = "X"
    ∧ extract_markdown_text jsonLoadsFail (.obj [("data", .str "X")]) = "X" :=
  ⟨rfl, (extract_data_roundtrip jsonLoadsFail "X" [("data", PyVal.str "X")]
      [("data", PyVal.str "X")] rfl rfl).1,
    (extract_data_roundtrip jsonLoadsFail "X" [("data", PyVal.str "X")]
      [("data", PyVal.str "X")] rfl rfl).2⟩

/-- Claim C6: `extract_markdown_text` never raises (it is a total function
into `String`), and a string payload on which `json.loads` fails is returned
unchanged. -/
theorem extract_parse_failure_passthrough (jsonLoads : String → Except String PyVal)
    (s err : String) (h : jsonLoads s = .error err) :
    extract_markdown_text jsonLoads (.str s) = s := by
  simp [extract_markdown_text, extractAttempt, h, pyStr, Bind.bind, Except.bind]

/-- Witness for C6: the plain non-JSON string "hello" maps to "hello". -/
theorem extract_parse_failure_passthrough_witness :
    jsonLoadsFail "hello" = .error "Expecting value: line 1 column 1 (char 0)"
    ∧ extract_markdown_text jsonLoadsFail (.str "hello") = "hello" :=
  ⟨rfl, extract_parse_failure_passthrough jsonLoadsFail "hello" _ rfl⟩

/-- Claim C8: for every well-formed request, `evaluate_mock` returns a
string containing the literal project name, project field, student level,
the materials joined by ", ", and the description verbatim (it is total by
construction, so it never raises). -/
theorem evaluate_mock_contains_fields
    (project_name project_description project_field student_level : String)
    (submission_materials : List String) :
    hasSubstr (evaluate_mock project_name project_description project_field student_level
        submission_materials) project_name
    ∧ hasSubstr (evaluate_mock project_name project_description project_field student_level
        submission_materials) project_field
    ∧ hasSubstr (evaluate_mock project_name project_description project_field student_level
        submission_materials) student_level
    ∧ hasSubstr (evaluate_mock project_name project_description project_field student_level
        submission_materials) (String.intercalate ", " submission_materials)
    ∧ hasSubstr (evaluate_mock project_name project_description project_field student_level
        submission_materials) project_description := by
  refine ⟨⟨MOCK_A, MOCK_B ++ project_field ++ MOCK_C ++ student_level ++ MOCK_D
        ++ String.intercalate ", " submission_materials ++ MOCK_E ++ project_description
        ++ MOCK_F ++ project_field ++ MOCK_G, ?_⟩,
    ⟨MOCK_A ++ project_name ++ MOCK_B, MOCK_C ++ student_level ++ MOCK_D
        ++ String.intercalate ", " submission_materials ++ MOCK_E ++ project_description
        ++ MOCK_F ++ project_field ++ MOCK_G, ?_⟩,
    ⟨MOCK_A ++ project_name ++ MOCK_B ++ project_field ++ MOCK_C, MOCK_D
        ++ String.intercalate ", " submission_materials ++ MOCK_E ++ project_description
        ++ MOCK_F ++ project_field ++ MOCK_G, ?_⟩,
    ⟨MOCK_A ++ project_name ++ MOCK_B ++ project_field ++ MOCK_C ++ student_level ++ MOCK_D,
      MOCK_E ++ project_description ++ MOCK_F ++ project_field ++ MOCK_G, ?_⟩,
    ⟨MOCK_A ++ project_name ++ MOCK_B ++ project_field ++ MOCK_C ++ student_level ++ MOCK_D
        ++ String.intercalate ", " submission_materials ++ MOCK_E,
      MOCK_F ++ project_field ++ MOCK_G, ?_⟩⟩
  all_goals simp only [evaluate_mock, String.append_assoc]

/-- Claim C9: `evaluate_mock` is deterministic — byte-identical inputs give
byte-identical outputs (all non-interpolated content, including the numeric
scores, is fixed literal text). -/
theorem evaluate_mock_deterministic
    (n₁ d₁ f₁ l₁ : String) (m₁ : List String) (n₂ d₂ f₂ l₂ : String) (m₂ : List String)
    (hn : n₁ = n₂) (hd : d₁ = d₂) (hf : f₁ = f₂) (hl : l₁ = l₂) (hm : m₁ = m₂) :
    evaluate_mock n₁ d₁ f₁ l₁ m₁ = evaluate_mock n₂ d₂ f₂ l₂ m₂ := by
  rw [hn, hd, hf, hl, hm]

/-- Witness for C9 at a concrete request. -/
theorem evaluate_mock_deterministic_witness :
    evaluate_mock "X" "demo" "技术开发" "本科" ["code", "docs"]
      = evaluate_mock "X" "demo" "技术开发" "本科" ["code", "docs"] :=
  evaluate_mock_deterministic "X" "demo" "技术开发" "本科" ["code", "docs"]
    "X" "demo" "技术开发" "本科" ["code", "docs"] rfl rfl rfl rfl rfl

/-- Claim C10: with an empty materials list `evaluate_mock` still returns
the full report (it is total by construction), and the materials line is
rendered with the empty string after the label — the label is immediately
followed by the newline that precedes the description section. -/
theorem evaluate_mock_empty_materials
    (project_name project_description project_field student_level : String) :
    hasSubstr (evaluate_mock project_name project_description project_field student_level [])
      "- **提交材料**: \n\n## 项目描述" := by
  refine ⟨MOCK_A ++ project_name ++ MOCK_B ++ project_field ++ MOCK_C ++ student_level ++ "\n",
    "\n" ++ project_description ++ MOCK_F ++ project_field ++ MOCK_G, ?_⟩
  have hi : String.intercalate ", " ([] : List String) = "" := rfl
  have hDE : ∀ x : String,
      MOCK_D ++ (MOCK_E ++ x)
        = "\n" ++ ("- **提交材料**: \n\n## 项目描述" ++ ("\n" ++ x)) := by
    intro x
    have h : MOCK_D ++ MOCK_E = "\n" ++ "- **提交材料**: \n\n## 项目描述" ++ "\n" := by decide
    calc MOCK_D ++ (MOCK_E ++ x) = MOCK_D ++ MOCK_E ++ x := by rw [String.append_assoc]
      _ = "\n" ++ "- **提交材料**: \n\n## 项目描述" ++ "\n" ++ x := by rw [h]
      _ = "\n" ++ ("- **提交材料**: \n\n## 项目描述" ++ ("\n" ++ x)) := by
          simp only [String.append_assoc]
  simp only [evaluate_mock, hi, String.append_empty, String.append_assoc]
  rw [hDE]

/-- Claim C1: for every request and every external world, the dispatcher
`evaluate_project` returns a string (it is total, so no exception escapes),
and that string is always one of: the mock report, the mock report behind
the error banner, or the extraction routine's result — every failure of the
modelled remote call is absorbed inside `evaluate_with_coze`. -/
theorem evaluate_project_no_escape (w : World) (jsonLoads : String → Except String PyVal)
    (project_name project_description project_field student_level : String)
    (submission_materials : List String) :
    evaluate_project w jsonLoads project_name project_description project_field student_level
        submission_materials
      = evaluate_mock project_name project_description project_field student_level
          submission_materials
    ∨ (∃ e, evaluate_project w jsonLoads project_name project_description project_field
          student_level submission_materials
        = ERROR_BANNER ++ e ++ "\n\n"
            ++ evaluate_mock project_name project_description project_field student_level
              submission_materials)
    ∨ (∃ v, evaluate_project w jsonLoads project_name project_description project_field
          student_level submission_materials
        = extract_markdown_text jsonLoads v) := by
  unfold evaluate_project evaluate_with_coze
  cases hc : get_coze_client w with
  | none => cases w.getenv "WORKFLOW_ID" <;> simp
  | some coze =>
    cases hw : w.getenv "WORKFLOW_ID" with
    | none => simp
    | some workflow_id =>
      by_cases hid : workflow_id = ""
      · simp [hid]
      · cases hs : w.stream coze workflow_id
            (mkParameters project_name project_description project_field student_level
              submission_materials) with
        | error e => exact Or.inr (Or.inl ⟨e, by simp [hid, hs]⟩)
        | ok p =>
          exact Or.inr (Or.inr ⟨if aggregate p.1 = "" then p.2 else .str (aggregate p.1),
            by simp [hid, hs]⟩)

/-- Claim C2: when the library is unavailable, or the token is absent or
empty, or the workflow id is absent or empty, `evaluate_project` returns
exactly the mock report, with no banner. -/
theorem evaluate_project_degraded_mode (w : World)
    (jsonLoads : String → Except String PyVal)
    (project_name project_description project_field student_level : String)
    (submission_materials : List String)
    (h : w.cozepy_available = false
      ∨ w.getenv "COZE_API_TOKEN" = none ∨ w.getenv "COZE_API_TOKEN" = some ""
      ∨ w.getenv "WORKFLOW_ID" = none ∨ w.getenv "WORKFLOW_ID" = some "") :
    evaluate_project w jsonLoads project_name project_description project_field student_level
        submission_materials
      = evaluate_mock project_name project_description project_field student_level
          submission_materials := by
  unfold evaluate_project evaluate_with_coze
  rcases h with h | h | h | h | h
  · have hnone : get_coze_client w = none := by simp [get_coze_client, h]
    rw [hnone]
  · have hnone : get_coze_client w = none := by
      cases hav : w.cozepy_available <;> simp [get_coze_client, hav, h]
    rw [hnone]
  · have hnone : get_coze_client w = none := by
      cases hav : w.cozepy_available <;> simp [get_coze_client, hav, h]
    rw [hnone]
  · rw [h]
    cases get_coze_client w <;> simp
  · rw [h]
    cases get_coze_client w <;> simp

/-- Witness for C2 at a world with an empty environment. -/
theorem evaluate_project_degraded_mode_witness :
    worldBare.getenv "COZE_API_TOKEN" = none
    ∧ evaluate_project worldBare jsonLoadsFail "X" "demo" "技术开发" "本科" ["code", "docs"]
        = evaluate_mock "X" "demo" "技术开发" "本科" ["code", "docs"] :=
  ⟨rfl, evaluate_project_degraded_mode worldBare jsonLoadsFail "X" "demo" "技术开发" "本科"
    ["code", "docs"] (Or.inr (Or.inl rfl))⟩

/-- Claim C3: when credentials resolve but the streaming call (or the drain
of its events) raises, `evaluate_project` returns the error banner naming
the failure, followed by exactly the mock report for the same request as
suffix. -/
theorem evaluate_project_error_banner (w : World)
    (jsonLoads : String → Except String PyVal)
    (project_name project_description project_field student_level : String)
    (submission_materials : List String) (coze : Coze) (workflow_id e : String)
    (hc : get_coze_client w = some coze)
    (hw : w.getenv "WORKFLOW_ID" = some workflow_id)
    (hne : workflow_id ≠ "")
    (hs : w.stream coze workflow_id
        (mkParameters project_name project_description project_field student_level
          submission_materials)
      = .error e) :
    evaluate_project w jsonLoads project_name project_description project_field student_level
        submission_materials
      = ERROR_BANNER ++ e ++ "\n\n"
          ++ evaluate_mock project_name project_description project_field student_level
            submission_materials := by
  unfold evaluate_project evaluate_with_coze
  rw [hc, hw]
  simp [hne, hs]

/-- Witness for C3 at a world whose remote call raises "boom". -/
theorem evaluate_project_error_banner_witness :
    get_coze_client worldErr = some ⟨"token123", COZE_CN_BASE_URL⟩
    ∧ evaluate_project worldErr jsonLoadsFail "X" "demo" "技术开发" "本科" ["code"]
        = ERROR_BANNER ++ "boom" ++ "\n\n" ++ evaluate_mock "X" "demo" "技术开发" "本科" ["code"] :=
  ⟨rfl, evaluate_project_error_banner worldErr jsonLoadsFail "X" "demo" "技术开发" "本科"
    ["code"] ⟨"token123", COZE_CN_BASE_URL⟩ "wf42" "boom" rfl rfl (by decide) rfl⟩

/-- Claim C7: when the remote path runs and the stream drains successfully,
the value handed to `extract_markdown_text` is the accumulated text when
non-empty and otherwise the raw terminal response object, and the function
returns exactly the extraction result on that value. -/
theorem remote_handoff_to_extraction (w : World)
    (jsonLoads : String → Except String PyVal)
    (project_name project_description project_field student_level : String)
    (submission_materials : List String) (coze : Coze) (workflow_id : String)
    (events : List StreamEvent) (response : PyVal)
    (hc : get_coze_client w = some coze)
    (hw : w.getenv "WORKFLOW_ID" = some workflow_id)
    (hne : workflow_id ≠ "")
    (hs : w.stream coze workflow_id
        (mkParameters project_name project_description project_field student_level
          submission_materials)
      = .ok (events, response)) :
    evaluate_project w jsonLoads project_name project_description project_field student_level
        submission_materials
      = extract_markdown_text jsonLoads
          (if aggregate events = "" then response else .str (aggregate events)) := by
  unfold evaluate_project evaluate_with_coze
  rw [hc, hw]
  simp [hne, hs]

/-- Witness for C7 at a world whose remote call yields one event. -/
theorem remote_handoff_to_extraction_witness :
    worldOk.stream ⟨"token123", COZE_CN_BASE_URL⟩ "wf42"
        (mkParameters "X" "demo" "技术开发" "本科" ["code"])
      = .ok ([⟨none, some "a", none⟩], .none_)
    ∧ evaluate_project worldOk jsonLoadsFail "X" "demo" "技术开发" "本科" ["code"]
      = extract_markdown_text jsonLoadsFail
          (if aggregate [⟨none, some "a", none⟩] = "" then PyVal.none_
           else .str (aggregate [⟨none, some "a", none⟩])) :=
  ⟨rfl, remote_handoff_to_extraction worldOk jsonLoadsFail "X" "demo" "技术开发" "本科"
    ["code"] ⟨"token123", COZE_CN_BASE_URL⟩ "wf42" [⟨none, some "a", none⟩] PyVal.none_
    rfl rfl (by decide) rfl⟩

end App2
